import Mathlib

/-!
Verification of the economy engine (`src/economy/economy.cpp`) of
Project-Alice-Itadori.  Floating point arithmetic of the source is embedded
as exact rational arithmetic; calls to `math::sqrt` are embedded as an
explicit function parameter `s : ℚ → ℚ`, so every definition stays
executable.  Line numbers in comments refer to `src/economy/economy.cpp`.
-/

namespace Economy

/-- Embedding of `std::clamp(v, lo, hi)` (for `lo ≤ hi`). -/
def clamp (v lo hi : ℚ) : ℚ := min (max v lo) hi

/-! ### Base price update (daily_update, lines 3928–3977)

For a non-money commodity the code aggregates demand, consumption and
production over all nations and then moves the current price.  The update of
one commodity depends only on the aggregated quantities, embedded here as
`prior_production` (yesterday's `total_production`), `global_pool`
(`global_market_pool`), `total_r_demand` and `current_price`. -/

/-- Price update for a non-money commodity, lines 3952–3976.  `s` embeds
`math::sqrt`. -/
def price_update (s : ℚ → ℚ) (prior_production global_pool total_r_demand current_price : ℚ) : ℚ :=
  let supply := prior_production + global_pool / 12
  let demand := total_r_demand
  let market_balance := demand - supply
  let max_slope := s |market_balance| + 20
  let oversupply_factor := clamp ((supply + 0.001) / (demand + 0.001) - 1) 0 max_slope
  let overdemand_factor := clamp ((demand + 0.001) / (supply + 0.001) - 1) 0 max_slope
  let speed_modifer := overdemand_factor - oversupply_factor
  let price_speed := 0.05 * speed_modifer
  let price_speed := if current_price < 1 then price_speed * current_price
                     else price_speed * s current_price
  clamp (current_price + price_speed) 0.001 100000

/-- The price-update formula exactly as the claim words it: the oversupply
and overdemand factors are `clamp(supply/demand − 1, 0, max_slope)` and the
symmetric inverse, without the `+0.001` guards the code applies to both
numerator and denominator. -/
def price_update_claimed (s : ℚ → ℚ) (prior_production global_pool total_r_demand current_price : ℚ) : ℚ :=
  let supply := prior_production + global_pool / 12
  let demand := total_r_demand
  let market_balance := demand - supply
  let max_slope := s |market_balance| + 20
  let oversupply_factor := clamp (supply / demand - 1) 0 max_slope
  let overdemand_factor := clamp (demand / supply - 1) 0 max_slope
  let speed_modifer := overdemand_factor - oversupply_factor
  let price_speed := 0.05 * speed_modifer
  let price_speed := if current_price < 1 then price_speed * current_price
                     else price_speed * s current_price
  clamp (current_price + price_speed) 0.001 100000

/-! ### Money commodity price (daily_update, lines 3901–3926) -/

/-- One entry of the laborer-needs basket loop, lines 3908–3923. -/
structure BasketEntry where
  is_available_from_start : Bool
  price : ℚ
  life_needs : ℚ
  everyday_needs : ℚ
  luxury_needs : ℚ

/-- The accumulated `luxury_costs_laborer`, lines 3905–3923.  The loop adds
the life, everyday (× 0.5) and luxury (× 0.1) needs of the laborer pop type,
each scaled by `base_demand`, the respective needs scale, and the commodity
price, for every commodity available from the start. -/
def luxury_costs_laborer (base_demand lf_scale ev_scale lx_scale : ℚ)
    (cs : List BasketEntry) : ℚ :=
  cs.foldl (fun acc c =>
    if c.is_available_from_start then
      acc + c.life_needs * base_demand * lf_scale * c.price
          + (0.5 * c.everyday_needs) * base_demand * ev_scale * c.price
          + (0.1 * c.luxury_needs) * base_demand * lx_scale * c.price
    else acc) 0

/-- Money commodity price update, line 3925. -/
def money_price_update (base_demand lf_scale ev_scale lx_scale : ℚ)
    (cs : List BasketEntry) : ℚ :=
  clamp (luxury_costs_laborer base_demand lf_scale ev_scale lx_scale cs * 0.3) 0.001 100000

/-! ### Theorems for claims C1 and C2 -/

/-- C1 (counterexample): the claim's formula `clamp(supply/demand − 1, 0,
max_slope)` disagrees with the code.  With `prior_production = 2`,
`global_pool = 0`, `demand = 1`, `current_price = 1` (so both square roots
are taken at `1`, where the identity function agrees with the real square
root), the code yields `951/1001` while the claimed formula yields `19/20`. -/
theorem c1_counterexample :
    price_update (fun q => q) 2 0 1 1 = 951 / 1001 ∧
    price_update_claimed (fun q => q) 2 0 1 1 = 19 / 20 ∧
    price_update (fun q => q) 2 0 1 1 ≠ price_update_claimed (fun q => q) 2 0 1 1 := by
  refine ⟨?_, ?_, ?_⟩ <;> norm_num [price_update, price_update_claimed, clamp]

/-- C1 (amended): the once-per-day base price update computes the oversupply
and overdemand factors as `clamp((supply+0.001)/(demand+0.001) − 1, 0,
max_slope)` and the symmetric inverse with `max_slope = sqrt(|demand −
supply|) + 20`, takes `speed = 0.05 × (overdemand − oversupply)` scaled by
the current price if it is below 1 and by `sqrt(price)` otherwise, adds that
speed to the price and clamps the result to `[0.001, 100000]`; for a
commodity with zero demand, zero prior production and an empty global pool
(and a prior price already in bounds) the price is unchanged because the
speed modifier is `0`. -/
theorem c1_price_update_formula (s : ℚ → ℚ)
    (pp gp d p : ℚ) :
    (price_update s pp gp d p =
      clamp (p +
        (if p < 1 then
          (0.05 * (clamp ((d + 0.001) / ((pp + gp / 12) + 0.001) - 1) 0 (s |d - (pp + gp / 12)| + 20)
            - clamp (((pp + gp / 12) + 0.001) / (d + 0.001) - 1) 0 (s |d - (pp + gp / 12)| + 20))) * p
        else
          (0.05 * (clamp ((d + 0.001) / ((pp + gp / 12) + 0.001) - 1) 0 (s |d - (pp + gp / 12)| + 20)
            - clamp (((pp + gp / 12) + 0.001) / (d + 0.001) - 1) 0 (s |d - (pp + gp / 12)| + 20))) * s p))
        0.001 100000) ∧
    (d = 0 → pp = 0 → gp = 0 → 0.001 ≤ p → p ≤ 100000 →
      price_update s pp gp d p = p) := by
  constructor
  · rfl
  · intro hd hpp hgp hlo hhi
    subst hd; subst hpp; subst hgp
    simp only [price_update]
    norm_num [sub_self]
    unfold clamp
    have h1 : p ⊔ 1 / 1000 = p := max_eq_left (by linarith)
    rw [h1]
    exact min_eq_left hhi

/-- Witness for `c1_price_update_formula` at `s = id`, `pp = gp = d = 0`,
`p = 1`. -/
theorem c1_witness :
    price_update (fun q => q) 0 0 0 1 = 1 :=
  (c1_price_update_formula (fun q => q) 0 0 0 1).2 rfl rfl rfl
    (by norm_num) (by norm_num)

/-- C2: after any price-update call the resulting price lies in
`[0.001, 100000]`, both for ordinary commodities (supply/demand driven
update) and for the money commodity (laborer needs basket). -/
theorem c2_price_bounds (s : ℚ → ℚ) (pp gp d p : ℚ)
    (base_demand lf_scale ev_scale lx_scale : ℚ) (cs : List BasketEntry) :
    (0.001 ≤ price_update s pp gp d p ∧ price_update s pp gp d p ≤ 100000) ∧
    (0.001 ≤ money_price_update base_demand lf_scale ev_scale lx_scale cs ∧
      money_price_update base_demand lf_scale ev_scale lx_scale cs ≤ 100000) := by
  have hb : ∀ x : ℚ, 0.001 ≤ clamp x 0.001 100000 ∧ clamp x 0.001 100000 ≤ 100000 := by
    intro x
    unfold clamp
    constructor
    · exact le_min (le_max_right _ _) (by norm_num)
    · exact min_le_right _ _
  exact ⟨hb _, hb _⟩

/-! ### Fiscal system: spending scale (daily_update, lines 3244–3283) -/

/-- Embedding of `can_take_loans`, lines 48–60.  `bankrupt_until` is `none` when the
nation was never bankrupt (a default-constructed date is falsy). -/
def can_take_loans (is_player_controlled is_debt_spending : Bool)
    (bankrupt_until : Option ℤ) (current_date : ℤ) : Bool :=
  if !is_player_controlled || !is_debt_spending then false
  else
    match bankrupt_until with
    | some last_br => if current_date < last_br then false else true
    | none => true

/-- Embedding of `interest_payment`, lines 62–72. -/
def interest_payment (money loan_interest_modifier loan_base_interest : ℚ) : ℚ :=
  if 0 ≤ money then 0
  else -money * max 0.01 ((loan_interest_modifier + 1) * loan_base_interest) / 30

/-- Result of the national-spending block: the money stockpile afterwards and
the spending scale stored by `nation_set_spending_level`. -/
structure SpendingUpdate where
  treasury : ℚ
  spending_scale : ℚ
deriving DecidableEq

/-- The national-spending block of `daily_update`, lines 3244–3274.  `total`
is `full_spending_cost(state, n)`.  For a player-controlled nation the
interest payment is deducted first; then either borrowing covers the whole
budget or the scale is limited by the (non-negative part of the) stockpile;
finally `min(budget, total × spending_scale)` is deducted. -/
def update_national_spending (is_player_controlled is_debt_spending : Bool)
    (bankrupt_until : Option ℤ) (current_date : ℤ)
    (loan_interest_modifier loan_base_interest : ℚ)
    (treasury total : ℚ) : SpendingUpdate :=
  if is_player_controlled then
    let sp := treasury - interest_payment treasury loan_interest_modifier loan_base_interest
    if can_take_loans is_player_controlled is_debt_spending bankrupt_until current_date then
      ⟨sp - min total (total * 1), 1⟩
    else
      let budget := max 0 sp
      let scale : ℚ := if total < 0.001 ∨ total ≤ budget then 1 else budget / total
      ⟨sp - min budget (total * scale), scale⟩
  else
    let budget := max 0 treasury
    let scale : ℚ := if total < 0.001 ∨ total ≤ budget then 1 else budget / total
    ⟨treasury - min budget (total * scale), scale⟩

/-! ### Bankruptcy (daily_update lines 4060–4070, go_bankrupt lines 5387–5429) -/

/-- Embedding of `max_loan`, lines 73–80. -/
def max_loan (max_loan_modifier rich middle poor : ℚ) : ℚ :=
  max 0 ((rich + middle + poor) * (max_loan_modifier + 1))

/-- C++ `int32_t(q)`: truncation toward zero. -/
def trunc (q : ℚ) : ℤ := if 0 ≤ q then ⌊q⌋ else ⌈q⌉

/-- The nation fields read and written by the bankruptcy logic. -/
structure NationFiscal where
  treasury : ℚ
  is_debt_spending : Bool
  bankrupt_until : Option ℤ
deriving DecidableEq

/-- The state mutation of `go_bankrupt`, lines 5417–5419 (event firing and
timed modifiers are external notifications): the treasury is reset to `0`,
debt spending is turned off and `bankrupt_until` is set to the current date
plus `int32_t(bankrupcy_duration × 365)` days. -/
def go_bankrupt (current_date : ℤ) (bankrupcy_duration : ℚ) (_n : NationFiscal) : NationFiscal :=
  { treasury := 0
    is_debt_spending := false
    bankrupt_until := some (current_date + trunc (bankrupcy_duration * 365)) }

/-- The daily bankruptcy check of `daily_update`, lines 4063–4070. -/
def daily_bankruptcy_check (current_date : ℤ) (bankrupcy_duration : ℚ)
    (max_loan_modifier rich middle poor : ℚ) (n : NationFiscal) : NationFiscal :=
  if n.treasury < 0 then
    if n.treasury < -(max_loan max_loan_modifier rich middle poor) then
      go_bankrupt current_date bankrupcy_duration n
    else n
  else n

/-! ### Theorems for claims C3 and C6 -/

/-- The spending scale produced by the national-spending block, as a single
conditional: `1` under borrowing, otherwise budget-limited. -/
theorem spending_scale_eq (pc ds : Bool) (bu : Option ℤ) (cd : ℤ)
    (lim lbi treasury total : ℚ) :
    (update_national_spending pc ds bu cd lim lbi treasury total).spending_scale =
      if can_take_loans pc ds bu cd then (1 : ℚ)
      else
        if total < 0.001 ∨
            total ≤ max 0 (if pc then treasury - interest_payment treasury lim lbi else treasury)
          then 1
          else max 0 (if pc then treasury - interest_payment treasury lim lbi else treasury) / total := by
  cases pc with
  | false => rfl
  | true =>
    simp only [update_national_spending]
    split_ifs <;> rfl

/-- C3: `spending_scale` is `1` when the full spending cost is affordable
from the (non-negative) treasury or borrowing is permitted, and otherwise it
is `treasury / total`; a nation with treasury `100`, cost `50` and borrowing
disallowed gets scale `1` and treasury `50` afterwards (the interest payment
is `0` for a non-negative treasury), and a nation with treasury `30` and
cost `50` and no borrowing gets scale `0.6`. -/
theorem c3_spending_scale (pc ds : Bool) (bu : Option ℤ) (cd : ℤ)
    (lim lbi treasury total : ℚ) (ht : 0 ≤ treasury) (htot : 0.001 ≤ total) :
    ((can_take_loans pc ds bu cd = true ∨ total ≤ treasury) →
      (update_national_spending pc ds bu cd lim lbi treasury total).spending_scale = 1) ∧
    (can_take_loans pc ds bu cd = false → treasury < total →
      (update_national_spending pc ds bu cd lim lbi treasury total).spending_scale
        = treasury / total) ∧
    update_national_spending true false bu cd lim lbi 100 50 = ⟨50, 1⟩ ∧
    (update_national_spending false false bu cd lim lbi 30 50).spending_scale = 30 / 50 := by
  have hip : interest_payment treasury lim lbi = 0 := by
    unfold interest_payment
    rw [if_pos ht]
  have hsse : (update_national_spending pc ds bu cd lim lbi treasury total).spending_scale =
      if can_take_loans pc ds bu cd then (1 : ℚ)
      else if total < 0.001 ∨ total ≤ treasury then 1 else treasury / total := by
    rw [spending_scale_eq, hip, sub_zero, ite_self, max_eq_right ht]
  refine ⟨?_, ?_, ?_, ?_⟩
  · intro h
    rw [hsse]
    split_ifs with h1 h2
    · rfl
    · rfl
    · exfalso
      rcases h with h | h
      · rw [h] at h1
        exact h1 rfl
      · exact h2 (Or.inr h)
  · intro hl hless
    rw [hsse, hl]
    have hcond : ¬(total < 0.001 ∨ total ≤ treasury) := by
      push_neg
      exact ⟨by linarith, hless⟩
    rw [if_neg (by simp), if_neg hcond]
  · have h1 : interest_payment 100 lim lbi = 0 := by
      unfold interest_payment
      norm_num
    have h2 : can_take_loans true false bu cd = false := by
      simp [can_take_loans]
    simp only [update_national_spending, if_pos, h1, h2, Bool.false_eq_true, if_false, sub_zero,
      if_true]
    rw [if_pos (by norm_num : (50:ℚ) < 0.001 ∨ (50:ℚ) ≤ max 0 100)]
    norm_num
  · rw [spending_scale_eq]
    rw [if_neg (by simp [can_take_loans]),
      if_neg (by norm_num : ¬((50:ℚ) < 0.001 ∨ (50:ℚ) ≤ max 0 (if false then 30 - interest_payment 30 lim lbi else 30)))]
    norm_num

/-- Witness for `c3_spending_scale`: a non-player nation with treasury `30`
and cost `50` gets spending scale `30/50`. -/
theorem c3_witness :
    (update_national_spending false false none 0 0 0 30 50).spending_scale = 30 / 50 :=
  (c3_spending_scale false false none 0 0 0 30 50 (by norm_num) (by norm_num)).2.2.2

/-- C6: the daily bankruptcy check fires `go_bankrupt` exactly when the
treasury debt exceeds `max_loan`: with treasury `-20` and `max_loan = 10`
the nation goes bankrupt, its treasury resets to `0` and `bankrupt_until`
becomes the current date plus the bankruptcy duration (in days,
`int32_t(bankrupcy_duration × 365)`); while `-max_loan ≤ treasury` nothing
changes. -/
theorem c6_bankruptcy (cd : ℤ) (dur mlm rich middle poor : ℚ) (n : NationFiscal) :
    (n.treasury = -20 → max_loan mlm rich middle poor = 10 →
      daily_bankruptcy_check cd dur mlm rich middle poor n =
        { treasury := 0
          is_debt_spending := false
          bankrupt_until := some (cd + trunc (dur * 365)) }) ∧
    (-(max_loan mlm rich middle poor) ≤ n.treasury →
      daily_bankruptcy_check cd dur mlm rich middle poor n = n) := by
  constructor
  · intro ht hml
    unfold daily_bankruptcy_check
    rw [hml, ht]
    norm_num
    rfl
  · intro hle
    unfold daily_bankruptcy_check
    by_cases h0 : n.treasury < 0
    · rw [if_pos h0, if_neg (by linarith)]
    · rw [if_neg h0]

/-- Witness for `c6_bankruptcy`: the nation `⟨-20, true, none⟩` with tax base
`10` and zero loan modifier goes bankrupt on day `0` with a one-year
bankruptcy duration, ending with treasury `0` and `bankrupt_until = 365`. -/
theorem c6_witness :
    daily_bankruptcy_check 0 1 0 10 0 0 ⟨-20, true, none⟩ =
      ⟨0, false, some 365⟩ := by
  have h := (c6_bankruptcy 0 1 0 10 0 0 ⟨-20, true, none⟩).1 rfl (by
    unfold max_loan
    norm_num)
  rw [h]
  norm_num [trunc]

/-! ### Demand satisfaction (daily_update, lines 3292–3304) -/

/-- The update of `demand_satisfaction` (first component) and
`direct_demand_satisfaction` (second component) for one nation and
commodity, lines 3292–3304.  A missing sphere leader or an unused stockpile
enters the total supply as `0`, exactly as in the source's conditional
reads. -/
def satisfaction_update (sat_delay_factor old_sat dom_pool sl_pool sp_pool wm_pool rd : ℚ) :
    ℚ × ℚ :=
  let total_supply := dom_pool + sl_pool + sp_pool + wm_pool
  let new_sat := if 0.0001 < rd then total_supply / rd else total_supply
  let adj_sat := old_sat * sat_delay_factor + new_sat * (1 - sat_delay_factor)
  (min 1 adj_sat, min 1 new_sat)

/-! ### RGO employment allocator (update_rgo_employment, lines 1019–1121) -/

/-- Per-commodity data read by the allocator loop: the current
`rgo_employment_per_good`, the `rgo_target_employment_per_good` and
`rgo_max_employment`.  The source sorts the goods by expected profit; the
bound proved below holds for any order. -/
structure RgoGood where
  current : ℚ
  target : ℚ
  max_emp : ℚ

/-- One iteration of the distribution loop, lines 1077–1091 (`speed` is
`0.20`): blend current and target employment, cap by the remaining
workforce, subtract from the workforce, then clamp the stored value to
`[0, max_employment]`. -/
def rgo_alloc_step (total_workforce : ℚ) (g : RgoGood) : ℚ × ℚ :=
  let target_workforce := min g.target total_workforce
  let new_employment := min (g.current * (1 - 0.20) + target_workforce * 0.20) total_workforce
  let remaining := total_workforce - new_employment
  (remaining, clamp new_employment 0 g.max_emp)

/-- The distribution loop over the ordered goods list, returning the
remaining workforce and the stored per-good employments. -/
def rgo_alloc : ℚ → List RgoGood → ℚ × List ℚ
  | tw, [] => (tw, [])
  | tw, g :: gs =>
    let s := rgo_alloc_step tw g
    let rest := rgo_alloc s.1 gs
    (rest.1, s.2 :: rest.2)

/-- The allocator for one province: distribute the labor pool over the
goods, then assign the remainder (capped by
`subsistence_max_pseudoemployment`) to subsistence, lines 1093–1097. -/
def update_rgo_employment (labor_pool : ℚ) (goods : List RgoGood) (subsistence_max : ℚ) :
    List ℚ × ℚ :=
  let r := rgo_alloc labor_pool goods
  (r.2, min subsistence_max r.1)

/-- The allocation loop never hands out more than the workforce it starts
with: the remaining workforce stays non-negative and stored employments
plus the remaining workforce stay within the initial workforce. -/
theorem rgo_alloc_bound (goods : List RgoGood) :
    ∀ tw : ℚ, 0 ≤ tw → (∀ g ∈ goods, 0 ≤ g.current ∧ 0 ≤ g.target) →
      0 ≤ (rgo_alloc tw goods).1 ∧
        ((rgo_alloc tw goods).2).sum + (rgo_alloc tw goods).1 ≤ tw := by
  induction goods with
  | nil =>
    intro tw htw _
    exact ⟨htw, by simp [rgo_alloc]⟩
  | cons g gs ih =>
    intro tw htw hg
    obtain ⟨hgc, hgt⟩ := hg g (List.mem_cons_self g gs)
    have htgt : 0 ≤ min g.target tw := le_min hgt htw
    have hne0 : 0 ≤ min (g.current * (1 - 0.20) + min g.target tw * 0.20) tw := by
      apply le_min _ htw
      have h1 : 0 ≤ g.current * (1 - 0.20) := by positivity
      have h2 : 0 ≤ min g.target tw * 0.20 := by positivity
      linarith
    have hnele : min (g.current * (1 - 0.20) + min g.target tw * 0.20) tw ≤ tw :=
      min_le_right _ _
    set ne := min (g.current * (1 - 0.20) + min g.target tw * 0.20) tw with hne
    have hrem : 0 ≤ tw - ne := by linarith
    have hstep : rgo_alloc_step tw g = (tw - ne, clamp ne 0 g.max_emp) := rfl
    have hstored : clamp ne 0 g.max_emp ≤ ne := by
      unfold clamp
      calc min (max ne 0) g.max_emp ≤ max ne 0 := min_le_left _ _
        _ = ne := max_eq_left hne0
    obtain ⟨ih1, ih2⟩ := ih (tw - ne) hrem (fun x hx => hg x (List.mem_cons_of_mem g hx))
    constructor
    · simpa [rgo_alloc, hstep] using ih1
    · simp only [rgo_alloc, hstep, List.sum_cons]
      linarith

/-! ### Theorems for claims C8 and C9 -/

/-- C8: after market clearing, both `demand_satisfaction` and
`direct_demand_satisfaction` lie in `[0, 1]`, given non-negative pools, a
previous satisfaction in `[0, ∞)` and a delay factor in `[0, 1]`. -/
theorem c8_satisfaction_bounds (f old_sat dom sl sp wm rd : ℚ)
    (hf0 : 0 ≤ f) (hf1 : f ≤ 1) (ho : 0 ≤ old_sat)
    (hd : 0 ≤ dom) (hsl : 0 ≤ sl) (hsp : 0 ≤ sp) (hwm : 0 ≤ wm) :
    (0 ≤ (satisfaction_update f old_sat dom sl sp wm rd).1 ∧
      (satisfaction_update f old_sat dom sl sp wm rd).1 ≤ 1) ∧
    (0 ≤ (satisfaction_update f old_sat dom sl sp wm rd).2 ∧
      (satisfaction_update f old_sat dom sl sp wm rd).2 ≤ 1) := by
  have hts : 0 ≤ dom + sl + sp + wm := by linarith
  have hnew : 0 ≤ if 0.0001 < rd then (dom + sl + sp + wm) / rd else dom + sl + sp + wm := by
    split_ifs with h
    · exact div_nonneg hts (by linarith)
    · exact hts
  have hadj : 0 ≤ old_sat * f +
      (if 0.0001 < rd then (dom + sl + sp + wm) / rd else dom + sl + sp + wm) * (1 - f) := by
    have h1 : 0 ≤ old_sat * f := mul_nonneg ho hf0
    have h2 : 0 ≤ (if 0.0001 < rd then (dom + sl + sp + wm) / rd else dom + sl + sp + wm) * (1 - f) :=
      mul_nonneg hnew (by linarith)
    linarith
  refine ⟨⟨le_min (by norm_num) hadj, min_le_left _ _⟩,
    ⟨le_min (by norm_num) hnew, min_le_left _ _⟩⟩

/-- Witness for `c8_satisfaction_bounds` at delay factor `1/2`, previous
satisfaction `1`, pools `3, 0, 0, 1` and demand `8`. -/
theorem c8_witness :
    (0 ≤ (satisfaction_update (1/2) 1 3 0 0 1 8).1 ∧
      (satisfaction_update (1/2) 1 3 0 0 1 8).1 ≤ 1) ∧
    (0 ≤ (satisfaction_update (1/2) 1 3 0 0 1 8).2 ∧
      (satisfaction_update (1/2) 1 3 0 0 1 8).2 ≤ 1) :=
  c8_satisfaction_bounds (1/2) 1 3 0 0 1 8 (by norm_num) (by norm_num) (by norm_num)
    (by norm_num) (by norm_num) (by norm_num) (by norm_num)

/-- C9: after the RGO employment allocator runs, the sum over commodities of
the stored `rgo_employment_per_good` plus `subsistence_employment` does not
exceed the eligible labor pool (RGO worker pops plus slaves); the code
keeps the exact bound, so it holds a fortiori with any epsilon slack. -/
theorem c9_rgo_employment_bound (worker_pool slave_pool : ℚ) (goods : List RgoGood)
    (subsistence_max : ℚ) (hw : 0 ≤ worker_pool) (hs : 0 ≤ slave_pool)
    (hg : ∀ g ∈ goods, 0 ≤ g.current ∧ 0 ≤ g.target) :
    ((update_rgo_employment (worker_pool + slave_pool) goods subsistence_max).1).sum
      + (update_rgo_employment (worker_pool + slave_pool) goods subsistence_max).2
      ≤ worker_pool + slave_pool := by
  obtain ⟨h1, h2⟩ := rgo_alloc_bound goods (worker_pool + slave_pool) (by linarith) hg
  unfold update_rgo_employment
  have hsub : min subsistence_max (rgo_alloc (worker_pool + slave_pool) goods).1
      ≤ (rgo_alloc (worker_pool + slave_pool) goods).1 := min_le_right _ _
  simp only
  linarith

/-- Witness for `c9_rgo_employment_bound`: a labor pool of `10` workers,
one good with current employment `5`, target `8` and capacity `100`, and a
large subsistence capacity. -/
theorem c9_witness :
    ((update_rgo_employment (10 + 0) [⟨5, 8, 100⟩] 1000).1).sum
      + (update_rgo_employment (10 + 0) [⟨5, 8, 100⟩] 1000).2 ≤ 10 + 0 :=
  c9_rgo_employment_bound 10 0 [⟨5, 8, 100⟩] 1000 (by norm_num) (by norm_num)
    (by intro g hgm; simp at hgm; rw [hgm]; norm_num)

/-! ### Market clearing pool consumption (daily_update, lines 3289–3336) -/

/-- The per-commodity pools touched by market clearing: the nation's
domestic pool, the sphere leader's domestic pool, the nation's stockpile,
the global pool, and the recorded imports. -/
structure PoolState where
  dom : ℚ
  sl : ℚ
  stock : ℚ
  glob : ℚ
  imports : ℚ
deriving DecidableEq

/-- Pool consumption for one nation and commodity, lines 3292–3335.
`has_sl` is whether the nation is in someone's sphere, `drawing` is
`nation_get_drawing_on_stockpiles`.  With a price multiplier of at least 1
the domestic pool is consumed first, then the sphere leader's pool, then
the stockpile, then the global pool; otherwise the global pool is consumed
first and then the domestic, sphere and stockpile pools in that order. -/
def market_clear (has_sl drawing : Bool) (mult dom slp st glob rd : ℚ) : PoolState :=
  let sl_pool := if has_sl then slp else 0
  let sp_pool := if drawing then st else 0
  if 1 ≤ mult then
    let dom1 := max 0 (dom - rd)
    let rd1 := max (rd - dom) 0
    let sl1 := if has_sl then max 0 (slp - rd1) else slp
    let rd2 := if has_sl then max (rd1 - sl_pool) 0 else rd1
    let st1 := if drawing then max 0 (sp_pool - rd2) else st
    let rd3 := if drawing then max (rd2 - sp_pool) 0 else rd2
    let glob1 := max 0 (glob - rd3)
    ⟨dom1, sl1, st1, glob1, min glob rd3⟩
  else
    let imports := min glob rd
    let glob1 := max 0 (glob - rd)
    let rd1 := max (rd - glob) 0
    let dom1 := max 0 (dom - rd1)
    let rd2 := max (rd1 - dom) 0
    let sl1 := if has_sl then max 0 (slp - rd2) else slp
    let rd3 := if has_sl then max (rd2 - sl_pool) 0 else rd2
    let st1 := if drawing then max 0 (sp_pool - rd3) else st
    ⟨dom1, sl1, st1, glob1, imports⟩

/-- Pool consumption as the claim words it: the same domestic-first order
for a multiplier ≥ 1, but the exact *reverse* order — global, stockpile,
sphere leader, domestic — for a multiplier < 1. -/
def market_clear_claimed (has_sl drawing : Bool) (mult dom slp st glob rd : ℚ) : PoolState :=
  let sl_pool := if has_sl then slp else 0
  let sp_pool := if drawing then st else 0
  if 1 ≤ mult then
    market_clear has_sl drawing mult dom slp st glob rd
  else
    let imports := min glob rd
    let glob1 := max 0 (glob - rd)
    let rd1 := max (rd - glob) 0
    let st1 := if drawing then max 0 (sp_pool - rd1) else st
    let rd2 := if drawing then max (rd1 - sp_pool) 0 else rd1
    let sl1 := if has_sl then max 0 (slp - rd2) else slp
    let rd3 := if has_sl then max (rd2 - sl_pool) 0 else rd2
    let dom1 := max 0 (dom - rd3)
    ⟨dom1, sl1, st1, glob1, imports⟩

/-- Sequential consumption of a demand from a list of pools: each pool is
reduced by the remaining demand, and the demand by the pool, both floored
at zero.  Returns the reduced pools and the leftover demand. -/
def consume : ℚ → List ℚ → List ℚ × ℚ
  | rd, [] => ([], rd)
  | rd, p :: ps =>
    let r := consume (max (rd - p) 0) ps
    (max 0 (p - rd) :: r.1, r.2)

/-! ### Theorems for claim C4 -/

/-- C4 (counterexample): with a price multiplier below 1 the code does not
consume the pools in the exact reverse order.  With demand 1, domestic 1,
sphere 1, stockpile 1 and an empty global pool, the code drains the
domestic pool and leaves the stockpile untouched, while the claimed
reverse order drains the stockpile and leaves the domestic pool
untouched. -/
theorem c4_counterexample :
    market_clear true true (1/2) 1 1 1 0 1 = ⟨0, 1, 1, 0, 0⟩ ∧
    market_clear_claimed true true (1/2) 1 1 1 0 1 = ⟨1, 1, 0, 0, 0⟩ ∧
    market_clear true true (1/2) 1 1 1 0 1 ≠
      market_clear_claimed true true (1/2) 1 1 1 0 1 := by
  refine ⟨?_, ?_, ?_⟩ <;> norm_num [market_clear, market_clear_claimed]

/-- C4 (amended): market clearing consumes the nation's demand from the
pools in the fixed priority order domestic → sphere leader → stockpile →
global when the tariff/blockade multiplier is ≥ 1, and in the order
global → domestic → sphere leader → stockpile (the global pool moves to
the front; the rest keep their relative order) when the multiplier is < 1;
imports record how much of the demand reaching the global pool it could
cover.  (The satisfaction ratio produced alongside is
`satisfaction_update`.) -/
theorem c4_clearing_order (mult dom slp st glob rd : ℚ) :
    (1 ≤ mult →
      (let r := market_clear true true mult dom slp st glob rd
      consume rd [dom, slp, st, glob] =
        ([r.dom, r.sl, r.stock, r.glob], max ((consume rd [dom, slp, st]).2 - glob) 0) ∧
      r.imports = min glob (consume rd [dom, slp, st]).2)) ∧
    (mult < 1 →
      (let r := market_clear true true mult dom slp st glob rd
      consume rd [glob, dom, slp, st] =
        ([r.glob, r.dom, r.sl, r.stock], max ((consume rd [glob, dom, slp]).2 - st) 0) ∧
      r.imports = min glob rd)) := by
  constructor
  · intro h
    simp only [market_clear, if_pos h, consume]
    exact ⟨rfl, rfl⟩
  · intro h
    simp only [market_clear, if_neg (not_le.mpr h), consume]
    exact ⟨rfl, trivial⟩

/-- Witness for `c4_clearing_order`: multiplier 2 prefers the domestic
pool. -/
theorem c4_witness :
    (let r := market_clear true true 2 3 1 1 5 4
    consume 4 [3, 1, 1, 5] =
      ([r.dom, r.sl, r.stock, r.glob], max ((consume 4 [3, 1, 1]).2 - 5) 0) ∧
    r.imports = min 5 (consume 4 [3, 1, 1]).2) :=
  (c4_clearing_order 2 3 1 1 5 4).1 (by norm_num)

/-! ### Effective prices (populate_effective_prices, lines 2846–2896) -/

/-- The per-nation effective price for one commodity, lines 2849–2895.
`mult` is `global_market_price_multiplier`; the domestic supply is the
nation's own pool plus the sphere leader's pool (if any) plus the
stockpile when drawing on it. -/
def effective_price (mult own slp : ℚ) (has_sl drawing : Bool)
    (stock glob last_demand base_price : ℚ) : ℚ :=
  let domestic_supply := own + (if has_sl then slp else 0) + (if drawing then stock else 0)
  if 1 ≤ mult then
    if last_demand ≤ domestic_supply then base_price
    else if last_demand ≤ domestic_supply + glob then
      let f := domestic_supply / last_demand
      base_price * f + base_price * (1 - f) * mult
    else if 0 < domestic_supply + glob then
      let f := domestic_supply / (domestic_supply + glob)
      base_price * f + base_price * (1 - f) * mult
    else base_price * mult
  else
    if last_demand ≤ glob then base_price
    else if last_demand ≤ domestic_supply + glob then
      let f := glob / last_demand
      base_price * f * mult + base_price * (1 - f)
    else if 0 < domestic_supply + glob then
      let f := glob / (domestic_supply + glob)
      base_price * f * mult + base_price * (1 - f)
    else base_price

/-- The effective price as the claim words it: the multiplier is applied to
whichever pool is *not* preferred, and the blend is proportional to the
fraction of demand the preferred pool cannot meet. -/
def effective_price_claimed (mult dom glob last_demand base_price : ℚ) : ℚ :=
  if 1 ≤ mult then
    if last_demand ≤ dom then base_price
    else
      let u := (last_demand - dom) / last_demand
      base_price * (1 - u) + base_price * mult * u
  else
    if last_demand ≤ glob then base_price
    else
      let u := (last_demand - glob) / last_demand
      base_price * (1 - u) + base_price * mult * u

/-- The fraction of the purchase the code prices at the multiplied
(global-market) price, collected from the branches of
`populate_effective_prices`. -/
def global_share (mult dom glob last_demand : ℚ) : ℚ :=
  if 1 ≤ mult then
    if last_demand ≤ dom then 0
    else if last_demand ≤ dom + glob then 1 - dom / last_demand
    else if 0 < dom + glob then 1 - dom / (dom + glob)
    else 1
  else
    if last_demand ≤ glob then 0
    else if last_demand ≤ dom + glob then glob / last_demand
    else if 0 < dom + glob then glob / (dom + glob)
    else 0

/-! ### Theorems for claim C5 -/

/-- C5 (counterexample): with multiplier `1/2` (global pool preferred),
base price `1`, domestic supply `3`, global supply `1` and demand `4`, the
code prices the global-pool fraction — the *preferred* pool — at the
multiplied price, giving `7/8`, while the claim (multiplier on the
non-preferred pool, blend by unmet demand fraction) gives `5/8`. -/
theorem c5_counterexample :
    effective_price (1/2) 3 0 false false 0 1 4 1 = 7/8 ∧
    effective_price_claimed (1/2) 3 1 4 1 = 5/8 ∧
    effective_price (1/2) 3 0 false false 0 1 4 1 ≠ effective_price_claimed (1/2) 3 1 4 1 := by
  refine ⟨?_, ?_, ?_⟩ <;> norm_num [effective_price, effective_price_claimed]

/-- C5 (amended): the effective price always blends the base price (paid on
the domestically-covered share) with the multiplier-inflated base price
(paid on the global-market share): `base × (1 − g) + base × mult × g`,
where `g` is the global share.  The preference (decided by whether the
multiplier is ≥ 1 or < 1) determines which pool is tapped first: the
global share is `0` — so the effective price equals the base price — when
demand fits in the preferred pool; when demand exceeds both pools, the
shares come from the pool sizes rather than from demand; with both pools
empty the price is `base × mult` in domestic-preference mode and `base` in
global-preference mode. -/
theorem c5_effective_price_blend (mult own slp : ℚ) (has_sl drawing : Bool)
    (stock glob last_demand base_price : ℚ) :
    effective_price mult own slp has_sl drawing stock glob last_demand base_price =
      base_price * (1 - global_share mult
          (own + (if has_sl then slp else 0) + (if drawing then stock else 0)) glob last_demand)
        + base_price * mult * global_share mult
            (own + (if has_sl then slp else 0) + (if drawing then stock else 0)) glob last_demand := by
  simp only [effective_price, global_share]
  split_ifs <;> ring

/-! ### Spending deduction and refunds (full_spending_cost lines 2223–2245,
daily_update lines 3482–3501) -/

/-- Per-commodity data of one spending category (shown here for the navy
category; army, stockpile and overseas refunds follow the same pattern):
the registered category demand, the demand satisfaction after clearing,
the nation's effective price (used when the cost was deducted) and the
commodity's current price (used when the refund is credited). -/
structure SpendEntry where
  demand : ℚ
  sat : ℚ
  eff_price : ℚ
  cur_price : ℚ

/-- The navy component of `full_spending_cost`, lines 2239–2245: demand ×
naval spending setting × *effective* price, summed over commodities.
Multiplied by the spending scale, this is what the treasury deduction
charges for the category. -/
def navy_spending_cost (spending_level : ℚ) (l : List SpendEntry) : ℚ :=
  (l.map fun e => e.demand * spending_level * e.eff_price).sum

/-- The navy refund accumulated after clearing, lines 3486–3497: the
unsatisfied fraction of the scaled demand, valued at the commodity's
*current* price. -/
def navy_refund (scale spending_level : ℚ) (l : List SpendEntry) : ℚ :=
  (l.map fun e => e.demand * (1 - e.sat) * scale * spending_level * e.cur_price).sum

/-- The value, at the prices used for the deduction, of the navy goods the
nation actually received: the satisfied fraction of the scaled demand at
the effective price. -/
def navy_goods_value (scale spending_level : ℚ) (l : List SpendEntry) : ℚ :=
  (l.map fun e => e.demand * e.sat * scale * spending_level * e.eff_price).sum

/-! ### Factory consumption update (update_single_factory_consumption lines
1536–1663, update_factory_scale lines 1486–1530) -/

/-- Everything `update_single_factory_consumption` reads about one factory:
its own fields, the national/provincial multipliers, and the defines.
`production_scale_delta` is a constant from the surrounding project's
headers (not in this translation unit), passed through unevaluated. -/
structure FactoryConsumptionInput where
  per_level_employment : ℚ
  needs_scaling_factor : ℚ
  production_scale_delta : ℚ
  level : ℚ
  production_scale : ℚ
  primary_employment : ℚ
  secondary_employment : ℚ
  subsidized : Bool
  occupied : Bool
  mobilization_impact : ℚ
  output_amount : ℚ
  output_price : ℚ
  output_total_production : ℚ
  output_total_real_demand : ℚ
  input_total : ℚ
  e_input_total : ℚ
  min_input_available : ℚ
  min_e_input_available : ℚ
  input_multiplier : ℚ
  throughput_multiplier : ℚ
  output_multiplier : ℚ
  mfactor : ℚ
  expected_min_wage : ℚ

/-- Embedding of `factory_max_employment`, lines 1123–1125. -/
def factory_max_employment (i : FactoryConsumptionInput) : ℚ :=
  i.per_level_employment * i.level

/-- Embedding of `factory_max_production_scale`, lines 1486–1491. -/
def factory_max_production_scale (i : FactoryConsumptionInput) : ℚ :=
  i.primary_employment * i.level * (if i.occupied then 0.1 else 1)
    * max 0 i.mobilization_impact

/-- Embedding of `factory_desired_raw_profit`, lines 1532–1534. -/
def factory_desired_raw_profit (secondary_employment level spendings : ℚ) : ℚ :=
  spendings * (1.2 + secondary_employment * level / 150)

/-- The new production scale and the returned effective production scale. -/
structure ScaleResult where
  production_scale : ℚ
  effective : ℚ

/-- Embedding of `update_factory_scale`, lines 1493–1530: subsidized factories ramp
toward full scale; otherwise the scale moves by a profit-gap speed clamped
by the relative-production guard; the returned effective scale is capped
by `max_production_scale`. -/
def update_factory_scale (i : FactoryConsumptionInput)
    (max_production_scale raw_profit desired_raw_profit : ℚ) : ScaleResult :=
  let total_workers := factory_max_employment i
  let several_workers_scale := 10 / total_workers
  let relative_production_amount :=
    i.output_amount / (i.output_total_production + i.output_total_real_demand + 10)
  let relative_modifier := (1 / (relative_production_amount + 0.01)) / 1000
  if i.subsidized then
    let new_production_scale :=
      min 1 (i.production_scale + several_workers_scale * i.level * 10)
    ⟨new_production_scale, min (new_production_scale * i.level) max_production_scale⟩
  else
    let over_profit_ratio := raw_profit / (desired_raw_profit + 0.0001) - 1
    let under_profit_ratio := desired_raw_profit / (raw_profit + 0.0001) - 1
    let speed_modifier := over_profit_ratio - under_profit_ratio
    let speed := i.production_scale_delta * speed_modifier
      + several_workers_scale * (if 0 < raw_profit - desired_raw_profit then 1 else -1)
    let speed := clamp speed (-relative_modifier) relative_modifier
    let new_production_scale := clamp (i.production_scale + speed) 0 1
    ⟨new_production_scale, min (new_production_scale * i.level) max_production_scale⟩

/-- The `total_production` value of lines 1572–1576: the output if one level of the
factory were filled with workers. -/
def factory_full_output (i : FactoryConsumptionInput) : ℚ :=
  i.output_amount * (0.75 + 0.25 * i.min_e_input_available)
    * i.throughput_multiplier * i.output_multiplier * i.min_input_available

/-- The `spendings` value of lines 1584–1596: the cost if one level were filled. -/
def factory_full_spendings (i : FactoryConsumptionInput) : ℚ :=
  i.expected_min_wage * (i.per_level_employment / i.needs_scaling_factor)
    + i.input_multiplier * i.throughput_multiplier * i.input_total * i.min_input_available
    + i.input_multiplier * i.mfactor * i.e_input_total * i.min_e_input_available
        * i.min_input_available

/-- The factory fields written by `update_single_factory_consumption`. -/
structure FactoryUpdateResult where
  actual_production : ℚ
  full_profit : ℚ
  unprofitable : Bool
  production_scale : ℚ

/-- Embedding of `update_single_factory_consumption`, lines 1536–1663 (the intermediate
demand registration of lines 1624–1656 does not feed these outputs and is
elided): the unprofitable flag is set from the hypothetical
full-level profit before the scale update, and actual production is the
full-level output times the effective production scale. -/
def update_single_factory_consumption (i : FactoryConsumptionInput) : FactoryUpdateResult :=
  let max_production_scale := factory_max_production_scale i
  let total_production := factory_full_output i
  let profit := total_production * i.output_price
  let spendings := factory_full_spendings i
  let desired_profit := factory_desired_raw_profit i.secondary_employment i.level spendings
  let max_pure_profit := profit - spendings
  let unprofitable := !(decide (0 < max_pure_profit))
  let r := update_factory_scale i max_production_scale profit desired_profit
  ⟨total_production * r.effective, max_pure_profit * r.effective, unprofitable,
    r.production_scale⟩

/-! ### Theorems for claims C7 and C10 -/

/-- C7 (counterexample): the refund credited for an unsatisfied category is
not the unspent part of the deduction.  One commodity with demand 1,
satisfaction 0, effective price 2 and current price 1, at full spending
level and scale: the treasury was charged 2, no goods were received, yet
only 1 is refunded — the refund is valued at the current price, not at the
effective price used for the deduction. -/
theorem c7_counterexample :
    1 * navy_spending_cost 1 [⟨1, 0, 2, 1⟩] = 2 ∧
    navy_goods_value 1 1 [⟨1, 0, 2, 1⟩] + navy_refund 1 1 [⟨1, 0, 2, 1⟩] = 1 ∧
    1 * navy_spending_cost 1 [⟨1, 0, 2, 1⟩] ≠
      navy_goods_value 1 1 [⟨1, 0, 2, 1⟩] + navy_refund 1 1 [⟨1, 0, 2, 1⟩] := by
  refine ⟨?_, ?_, ?_⟩ <;>
    norm_num [navy_spending_cost, navy_goods_value, navy_refund]

/-- C7 (amended): refunds for unsatisfied spending are valued at the
commodity's *current* price while the deduction was priced at the nation's
*effective* price; when the two coincide for every commodity of the
category, the spending pass conserves money exactly: the scaled deduction
equals the value of the goods received plus the refund credited back. -/
theorem c7_spending_conservation (scale spending_level : ℚ) (l : List SpendEntry)
    (h : ∀ e ∈ l, e.eff_price = e.cur_price) :
    scale * navy_spending_cost spending_level l =
      navy_goods_value scale spending_level l + navy_refund scale spending_level l := by
  induction l with
  | nil => simp [navy_spending_cost, navy_goods_value, navy_refund]
  | cons e es ih =>
    have he : e.eff_price = e.cur_price := h e (List.mem_cons_self e es)
    have ihs : scale * navy_spending_cost spending_level es =
        navy_goods_value scale spending_level es + navy_refund scale spending_level es :=
      ih (fun x hx => h x (List.mem_cons_of_mem e hx))
    simp only [navy_spending_cost, navy_goods_value, navy_refund, List.map_cons,
      List.sum_cons] at ihs ⊢
    rw [mul_add, ihs, he]
    ring

/-- Witness for `c7_spending_conservation`: one commodity with demand 2,
satisfaction 1/2 and equal effective and current prices 3, at scale 1 and
spending level 1. -/
theorem c7_witness :
    1 * navy_spending_cost 1 [⟨2, 1/2, 3, 3⟩] =
      navy_goods_value 1 1 [⟨2, 1/2, 3, 3⟩] + navy_refund 1 1 [⟨2, 1/2, 3, 3⟩] :=
  c7_spending_conservation 1 1 [⟨2, 1/2, 3, 3⟩]
    (by intro e he; simp at he; rw [he])

/-- C10 (counterexample): a factory with `primary_employment = 0` that is
not subsidized can still end up with `unprofitable = false`: the flag is
computed from the hypothetical fully-staffed profit (here output 10 at
price 1, with zero input and wage costs), not from the actual production.
Its actual production is still 0. -/
theorem c10_counterexample :
    (update_single_factory_consumption
        ⟨100, 1, 0, 1, 0, 0, 0, false, false, 1, 10, 1, 0, 0, 0, 0, 1, 1, 1, 1, 1, 1, 0⟩).unprofitable
      = false ∧
    (update_single_factory_consumption
        ⟨100, 1, 0, 1, 0, 0, 0, false, false, 1, 10, 1, 0, 0, 0, 0, 1, 1, 1, 1, 1, 1, 0⟩).actual_production
      = 0 := by
  constructor <;>
    norm_num [update_single_factory_consumption, update_factory_scale,
      factory_full_output, factory_full_spendings, factory_max_production_scale,
      factory_max_employment, factory_desired_raw_profit, clamp]

/-- C10 (amended): for a factory with `primary_employment = 0` (and
non-negative level, previous production scale and per-level employment),
the consumption update yields `actual_production = 0`; the unprofitable
flag is set to whether the hypothetical fully-staffed profit fails to
exceed the fully-staffed spendings, independently of the employment and of
the subsidized flag. -/
theorem c10_zero_employment (i : FactoryConsumptionInput)
    (hpe : i.primary_employment = 0) (hl : 0 ≤ i.level)
    (hps : 0 ≤ i.production_scale) (hple : 0 ≤ i.per_level_employment) :
    (update_single_factory_consumption i).actual_production = 0 ∧
    (update_single_factory_consumption i).unprofitable
      = !(decide (0 < factory_full_output i * i.output_price - factory_full_spendings i)) := by
  have hmps : factory_max_production_scale i = 0 := by
    unfold factory_max_production_scale
    rw [hpe]
    ring
  have hscale : ∀ raw desired : ℚ,
      (update_factory_scale i (factory_max_production_scale i) raw desired).effective = 0 := by
    intro raw desired
    rw [hmps]
    simp only [update_factory_scale]
    have hns : ∀ ns : ℚ, 0 ≤ ns → min (ns * i.level) 0 = 0 := fun ns hns =>
      min_eq_right (mul_nonneg hns hl)
    have hcl : ∀ x : ℚ, 0 ≤ clamp x 0 1 := fun x =>
      le_min (le_max_right _ _) (by norm_num)
    split_ifs with hsub hprof
    · apply hns
      apply le_min (by norm_num)
      have h1 : 0 ≤ 10 / factory_max_employment i := by
        unfold factory_max_employment
        exact div_nonneg (by norm_num) (mul_nonneg hple hl)
      have h2 : 0 ≤ 10 / factory_max_employment i * i.level * 10 :=
        mul_nonneg (mul_nonneg h1 hl) (by norm_num)
      linarith
    · exact hns _ (hcl _)
    · exact hns _ (hcl _)
  refine ⟨?_, rfl⟩
  show factory_full_output i *
      (update_factory_scale i (factory_max_production_scale i)
        (factory_full_output i * i.output_price)
        (factory_desired_raw_profit i.secondary_employment i.level
          (factory_full_spendings i))).effective = 0
  rw [hscale]
  ring

/-- Witness for `c10_zero_employment`: the idle factory of the
counterexample satisfies the amended statement. -/
theorem c10_witness :
    (update_single_factory_consumption
        ⟨100, 1, 0, 1, 0, 0, 0, false, false, 1, 10, 1, 0, 0, 0, 0, 1, 1, 1, 1, 1, 1, 0⟩).actual_production
      = 0 :=
  (c10_zero_employment
    ⟨100, 1, 0, 1, 0, 0, 0, false, false, 1, 10, 1, 0, 0, 0, 0, 1, 1, 1, 1, 1, 1, 0⟩
    rfl (by norm_num) (by norm_num) (by norm_num)).1

end Economy
